import Mathlib

/-!
Verification development for the runtime-comparison experiment harness.

The repository is a benchmark harness: a bash orchestrator
(scripts/run_experiment.sh) cycles through a matrix of
(runtime x concurrency x repetition) trials, each trial starting a Docker
container, waiting for readiness, sampling resource usage in the background
(scripts/monitor_docker_stats.sh), driving load with k6 (k6/load.js), and
collecting artifacts into a per-trial directory.  The HTTP targets are
small Hono applications (src/app.js and variants).

This file embeds the relevant code shallowly:
* shell control flow under `set -euo pipefail` becomes a function from an
  oracle of external-command outcomes to a trace of performed actions plus
  an exit descriptor (an unguarded failing command aborts the script);
* the sampler loops become functions from a finite schedule of observed
  world states (stats-query outcome, container existence, wall-clock
  reading) to the list of emitted CSV rows plus a termination flag;
* the pure helpers (to_mb, the health-wait loop, the artifact path, the
  k6 iteration body, the /ping handlers) become Lean functions.
-/

/-- Runtime identifiers: the orchestrator's fixed list
`runtimes=(node bun deno)` (run_experiment.sh line 25). -/
inductive Runtime where
  | node
  | bun
  | deno
deriving DecidableEq, Repr

/-- Runtime names exactly as interpolated into container names and
artifact paths by run_experiment.sh. -/
def rtName : Runtime → String
  | Runtime.node => "node"
  | Runtime.bun => "bun"
  | Runtime.deno => "deno"

/-- Memory-unit normalization from monitor_docker_stats.sh lines 20-34
(function to_mb).  The shell `case "$unit"` chain becomes an if chain on
the unit string; the awk arithmetic becomes exact rational arithmetic
(the script then renders the value with printf %.3f / %.6f); the default
branch `*) echo ""` — the "unavailable" outcome — becomes `none`. -/
def to_mb (value : Rat) (unit : String) : Option Rat :=
  if unit = "KiB" then some (value / 1024)
  else if unit = "MiB" then some value
  else if unit = "GiB" then some (value * 1024)
  else if unit = "B" then some (value / 1024 / 1024)
  else if unit = "kB" then some (value / 1024)
  else if unit = "MB" then some value
  else if unit = "GB" then some (value * 1024)
  else none

/-- Health-wait loop shared by scripts/wait_for_url.sh (while i < TIMEOUT:
curl; i=i+1; sleep 1) and wait_container in run_experiment.sh lines 88-103
(for i in seq 1 30: curl; sleep 1).  `probe n` is the outcome of the curl
invocation of attempt `n` (numbered from 0); `fuel` is the number of
attempts remaining.  The function returns the index of the first
successful probe, or `none` when the budget is exhausted. -/
def waitFirst (probe : Nat → Bool) : Nat → Nat → Option Nat
  | 0, _ => none
  | fuel + 1, i => if probe i then some i else waitFirst probe fuel (i + 1)

/-- Exit status of wait_for_url.sh / wait_container: success (exit 0)
exactly when some probe within the budget succeeded; otherwise the script
echoes "timeout" and exits 1 — a value, not an exception. -/
def wait_for_url (probe : Nat → Bool) (timeout : Nat) : Bool :=
  (waitFirst probe timeout 0).isSome

/-- One observation instant of the sampler's world
(monitor_docker_stats.sh): `ts` is the `date +%s.%N` reading, `stats` is
the output of `docker stats --no-stream` (`none` when the command failed
or printed nothing — the `|| true` case), `alive` is the result of the
container_exists check at that instant. -/
structure SampleIn where
  ts : Rat
  stats : Option String
  alive : Bool

/-- Sampling loop of monitor_docker_stats.sh variant 1 (lines 38-72), run
over a finite schedule of observation instants.  Per iteration: an empty
stats result with the container still present sleeps and retries (no row);
an empty stats result with the container absent breaks out of the loop
(second component `true` = the loop terminated normally); a non-empty
stats result appends one CSV row carrying the timestamp taken in that
iteration.  The CSV fields of a row are derived from the raw stats string
via cut / parse_mem / to_mb; the row is emitted regardless of how that
derivation turns out. -/
def monitorRun1 : List SampleIn → List (Rat × String) × Bool
  | [] => ([], false)
  | i :: rest =>
    match i.stats with
    | none => if i.alive then monitorRun1 rest else ([], true)
    | some s =>
      let r := monitorRun1 rest
      ((i.ts, s) :: r.1, r.2)

/-- Sampling loop of monitor_docker_stats.sh variant 2 (lines 82-104).
Per iteration: if the container does not exist, or the stats query prints
nothing, a placeholder all-zero row is appended (modelled as payload
`none`); otherwise a row derived from the stats line is appended (payload
`some`).  The loop never breaks: it processes every scheduled instant. -/
def monitorRun2 : List SampleIn → List (Rat × Option String)
  | [] => []
  | i :: rest =>
    (i.ts, if i.alive then i.stats else none) :: monitorRun2 rest

/-- Externally visible actions performed by one trial iteration of
run_experiment.sh lines 115-219, in program order. -/
inductive Act where
  | mkdirDest
  | rmPreClean (ok : Bool)
  | dockerRun (ok : Bool)
  | waitHealth (ready : Bool)
  | saveStartupLog
  | monitorStart
  | probeApi (ok : Bool)
  | k6Run (ok : Bool)
  | killMonitor
  | waitMonitor
  | collectLogs
  | collectStats
  | rmTeardown (ok : Bool)
deriving DecidableEq, Repr

/-- Recognizer for the teardown stop-and-remove action of a trial. -/
def isRmTeardown : Act → Bool
  | Act.rmTeardown _ => true
  | _ => false

/-- Recognizer for the container start action of a trial. -/
def isDockerRun : Act → Bool
  | Act.dockerRun _ => true
  | _ => false

/-- Outcome of one trial iteration under `set -euo pipefail`:
`completed` = the body ran to its end; `skipped` = a guarded failure took
the `continue` branch; `aborted` = an unguarded command exited non-zero,
which terminates the whole script. -/
inductive TrialExit where
  | completed
  | skipped
  | aborted
deriving DecidableEq, Repr

/-- Oracle for the external commands one trial executes: `preRmOk` is the
exit of the guarded pre-clean `docker rm -f` (line 125), `runOk` the exit
of the unguarded `docker run -d` (line 129), `healthy n` the outcome of
the n-th readiness curl inside wait_container, `apiOk` the outcome of the
/api/products probe (line 158), `k6Ok` the k6 exit status (line 192),
`rmOk` the exit of the unguarded teardown `docker rm -f`
(lines 142, 162, 215). -/
structure TrialEnv where
  preRmOk : Bool
  runOk : Bool
  healthy : Nat → Bool
  apiOk : Bool
  k6Ok : Bool
  rmOk : Bool

/-- One trial iteration of run_experiment.sh lines 115-219.  Program
order: mkdir -p DEST; guarded pre-clean rm; docker run (unguarded: a
non-zero exit aborts the script under set -e); wait_container with 30
attempts — on failure save the startup log (guarded) and run the
unguarded teardown rm, then continue; start the background monitor; probe
the API (guarded) — on failure kill and wait the monitor (both guarded)
and run the unguarded teardown rm, then continue; run k6 in the
background and wait for it (guarded with || true); kill and wait the
monitor; collect container logs and final stats (guarded); unguarded
teardown rm.  Whenever an unguarded command fails the trace stops there
and the exit is `aborted`. -/
def runTrial (e : TrialEnv) : List Act × TrialExit :=
  if e.runOk = false then
    ([Act.mkdirDest, Act.rmPreClean e.preRmOk, Act.dockerRun false], TrialExit.aborted)
  else if wait_for_url e.healthy 30 = false then
    ([Act.mkdirDest, Act.rmPreClean e.preRmOk, Act.dockerRun true, Act.waitHealth false,
      Act.saveStartupLog, Act.rmTeardown e.rmOk],
      if e.rmOk = false then TrialExit.aborted else TrialExit.skipped)
  else if e.apiOk = false then
    ([Act.mkdirDest, Act.rmPreClean e.preRmOk, Act.dockerRun true, Act.waitHealth true,
      Act.monitorStart, Act.probeApi false, Act.killMonitor, Act.waitMonitor,
      Act.rmTeardown e.rmOk],
      if e.rmOk = false then TrialExit.aborted else TrialExit.skipped)
  else
    ([Act.mkdirDest, Act.rmPreClean e.preRmOk, Act.dockerRun true, Act.waitHealth true,
      Act.monitorStart, Act.probeApi true, Act.k6Run e.k6Ok, Act.killMonitor,
      Act.waitMonitor, Act.collectLogs, Act.collectStats, Act.rmTeardown e.rmOk],
      if e.rmOk = false then TrialExit.aborted else TrialExit.completed)

/-- Concurrency levels of the harness: VUS_LIST=(50 100 200)
(run_experiment.sh line 9). -/
def vusList : List Nat := [50, 100, 200]

/-- Ordered runtime list of the harness (run_experiment.sh line 25). -/
def runtimeList : List Runtime := [Runtime.node, Runtime.bun, Runtime.deno]

/-- Trial matrix in the orchestrator's nested order: runtime outer,
concurrency middle, repetition (1..reps) inner (run_experiment.sh
lines 106-116). -/
def matrixCells (reps : Nat) : List (Runtime × Nat × Nat) :=
  runtimeList.flatMap fun rt =>
    vusList.flatMap fun v =>
      (List.range reps).map fun r => (rt, v, r + 1)

/-- Sequential execution of the trial matrix (the nested for loops of
run_experiment.sh lines 106-221).  Each cell consults its own oracle;
an aborting trial terminates the whole loop (set -e), otherwise the loop
always proceeds to the next cell.  Second component: whether the script
aborted. -/
def runCells (cells : List (Runtime × Nat × Nat))
    (env : Runtime × Nat × Nat → TrialEnv) : List Act × Bool :=
  match cells with
  | [] => ([], false)
  | c :: rest =>
    let t := runTrial (env c)
    if t.2 = TrialExit.aborted then (t.1, true)
    else
      let r := runCells rest env
      (t.1 ++ r.1, r.2)

/-- Experiment-level actions of run_experiment.sh outside the trial loop. -/
inductive ExpAct where
  | composeDownPre
  | composeUp (ok : Bool)
  | waitPostgres
  | seedCheck (ok : Bool)
  | reseed (ok : Bool)
  | buildImage (rt : Runtime) (ok : Bool)
  | trial (a : Act)
  | composeDownFinal
deriving DecidableEq, Repr

/-- Oracle for the prelude commands of run_experiment.sh lines 49-85:
`composeUpOk` for the unguarded `docker compose up -d postgres`,
`seedOk` for the guarded seed-count check, `reseedOk` for the unguarded
manual re-seed commands, and one bit per unguarded `docker build`. -/
structure PreEnv where
  composeUpOk : Bool
  seedOk : Bool
  reseedOk : Bool
  buildNodeOk : Bool
  buildBunOk : Bool
  buildDenoOk : Bool

/-- Prelude of run_experiment.sh lines 49-85: guarded `docker compose
down -v || true`; unguarded compose up; the postgres log-poll loop (all
probes guarded); the guarded seed verification with unguarded manual
re-seed on failure; three unguarded image builds.  An unguarded failure
aborts the script (second component `true`). -/
def runPrelude (p : PreEnv) : List ExpAct × Bool :=
  if p.composeUpOk = false then
    ([ExpAct.composeDownPre, ExpAct.composeUp false], true)
  else
    let t1 := [ExpAct.composeDownPre, ExpAct.composeUp true, ExpAct.waitPostgres,
      ExpAct.seedCheck p.seedOk]
    if p.seedOk = false ∧ p.reseedOk = false then
      (t1 ++ [ExpAct.reseed false], true)
    else
      let t2 := if p.seedOk = false then t1 ++ [ExpAct.reseed true] else t1
      if p.buildNodeOk = false then
        (t2 ++ [ExpAct.buildImage Runtime.node false], true)
      else if p.buildBunOk = false then
        (t2 ++ [ExpAct.buildImage Runtime.node true, ExpAct.buildImage Runtime.bun false], true)
      else if p.buildDenoOk = false then
        (t2 ++ [ExpAct.buildImage Runtime.node true, ExpAct.buildImage Runtime.bun true,
          ExpAct.buildImage Runtime.deno false], true)
      else
        (t2 ++ [ExpAct.buildImage Runtime.node true, ExpAct.buildImage Runtime.bun true,
          ExpAct.buildImage Runtime.deno true], false)

/-- Whole experiment run of run_experiment.sh: prelude, then the trial
matrix, then — only if nothing aborted — the final `docker compose
down -v` (line 225).  Second component: whether the script aborted before
reaching its normal end. -/
def runExperiment (p : PreEnv) (reps : Nat)
    (env : Runtime × Nat × Nat → TrialEnv) : List ExpAct × Bool :=
  let pt := runPrelude p
  if pt.2 then (pt.1, true)
  else
    let tt := runCells (matrixCells reps) env
    if tt.2 then (pt.1 ++ tt.1.map ExpAct.trial, true)
    else (pt.1 ++ tt.1.map ExpAct.trial ++ [ExpAct.composeDownFinal], false)

/-- Decimal digit characters of n, most significant first: the digits of
n in base 10 (via Mathlib's Nat.digits, least significant first) reversed
and rendered as characters. -/
def decChars (n : Nat) : List Char :=
  ((Nat.digits 10 n).map Nat.digitChar).reverse

/-- Decimal numeral of a natural number, as the shell interpolates $vus
and $rep into the artifact path. -/
def natStr (n : Nat) : String :=
  if n = 0 then "0" else String.mk (decChars n)

/-- Artifact directory of one trial cell:
DEST="$OUTDIR/$rt/vus_$vus/rep_$rep" with OUTDIR="results"
(run_experiment.sh lines 11 and 119). -/
def destPath (rt : Runtime) (vus rep : Nat) : String :=
  "results" ++ "/" ++ rtName rt ++ "/" ++ ("vus_" ++ natStr vus) ++ "/" ++
    ("rep_" ++ natStr rep)

/-- Effect of `mkdir -p` on an abstract directory store: creating an
already-present directory is a no-op and never fails
(run_experiment.sh line 120). -/
def mkdirP (dirs : List String) (p : String) : List String :=
  if p ∈ dirs then dirs else p :: dirs

/-- Observable response data k6 sees for one request against
/api/products, as inspected by the check callbacks of k6/load.js:
HTTP status, duration in milliseconds, whether the body parses as JSON,
the parsed success flag (true only for a literal true value), the
products_count field when present, and whether the runtime field is
defined. -/
structure K6Response where
  status : Nat
  durationMs : Rat
  parses : Bool
  success : Bool
  productsCount : Option Int
  runtimeDefined : Bool

/-- Outcomes of the four check callbacks of k6/load.js lines 25-48.
JavaScript truthiness of body.products_count (a number) is being nonzero;
a failed JSON.parse makes the body-dependent checks return false. -/
structure ChecksOutcome where
  status200 : Bool
  under2s : Bool
  hasProducts : Bool
  hasRuntime : Bool
deriving DecidableEq, Repr

/-- Check callbacks of k6/load.js applied to one response. -/
def runChecks (r : K6Response) : ChecksOutcome where
  status200 := r.status == 200
  under2s := decide (r.durationMs < 2000)
  hasProducts := r.parses && r.success &&
    (match r.productsCount with
     | some n => decide (n ≠ 0) && decide (0 < n)
     | none => false)
  hasRuntime := r.parses && r.runtimeDefined

/-- Events of one k6 iteration: the HTTP request itself, and the
application of the check callbacks when they run. -/
inductive K6Event where
  | httpGet
  | checksApplied (c : ChecksOutcome)
deriving DecidableEq, Repr

/-- Warm-up window of k6/load.js line 4: WARMUP_SECONDS = 30. -/
def WARMUP_SECONDS : Rat := 30

/-- Body of the default function of k6/load.js lines 18-51: the request
is issued unconditionally; the check callbacks run only when the elapsed
time since start has reached WARMUP_SECONDS. -/
def k6Iteration (elapsed : Rat) (r : K6Response) : List K6Event :=
  K6Event.httpGet ::
    (if WARMUP_SECONDS ≤ elapsed then [K6Event.checksApplied (runChecks r)] else [])

/-- Application state the /ping handlers close over: whether the pg pool
has been initialised and whether the SELECT 1 probe succeeded
(src/app.js lines 22-23). -/
structure AppState where
  dbConnected : Bool
  poolInit : Bool

/-- Response of the /ping handler of src/app.js lines 79-84: plain text
"pong" with explicit status 200 and the X-Runtime / X-Framework headers.
The handler reads nothing from the database state. -/
structure PingResp where
  status : Nat
  body : String
  headers : List (String × String)
deriving DecidableEq, Repr

/-- The /ping handler of src/app.js lines 79-84, parametrised by the
RUNTIME_NAME value and the current application state (which it does not
consult). -/
def pingHono (runtimeName : String) (_st : AppState) : PingResp where
  status := 200
  body := "pong"
  headers := [("X-Runtime", runtimeName), ("X-Framework", "Hono")]

/-- JSON body of the /ping handler of the variant application
(src/unnamed/part_007 lines 67-74). -/
structure PingJson where
  pong : Bool
  runtime : String
  dbConnected : Bool
deriving DecidableEq, Repr

/-- The /ping handler of the variant application (src/unnamed/part_007
lines 67-74): c.json with no explicit status, hence Hono's default 200,
reporting the runtime name and the current db_connected flag. -/
def pingVariant (runtimeName : String) (st : AppState) : Nat × PingJson :=
  (200, { pong := true, runtime := runtimeName, dbConnected := st.dbConnected })

/-- Sample response used to exercise the k6 iteration body on concrete
input: a 200 response in 100 ms with a well-shaped body. -/
def k6SampleResp : K6Response where
  status := 200
  durationMs := 100
  parses := true
  success := true
  productsCount := some 100
  runtimeDefined := true

/-- Helper: waitFirst answers within its budget, succeeds exactly on the
first successful probe, and failure means every probe in the window
failed. -/
theorem waitFirst_spec (probe : Nat → Bool) :
    ∀ fuel i,
      (∀ j, waitFirst probe fuel i = some j →
        i ≤ j ∧ j < i + fuel ∧ probe j = true ∧ ∀ k, i ≤ k → k < j → probe k = false) ∧
      (waitFirst probe fuel i = none → ∀ k, i ≤ k → k < i + fuel → probe k = false) := by
  intro fuel
  induction fuel with
  | zero =>
    intro i
    constructor
    · intro j h
      simp [waitFirst] at h
    · intro _ k hik hk
      omega
  | succ f ih =>
    intro i
    constructor
    · intro j h
      by_cases hp : probe i = true
      · simp [waitFirst, hp] at h
        subst h
        exact ⟨le_refl i, by omega, hp, fun k hik hk => absurd hik (by omega)⟩
      · simp [waitFirst, hp] at h
        obtain ⟨h1, h2, h3, h4⟩ := (ih (i + 1)).1 j h
        refine ⟨by omega, by omega, h3, fun k hik hk => ?_⟩
        rcases Nat.eq_or_lt_of_le hik with rfl | hlt
        · simpa using hp
        · exact h4 k (by omega) hk
    · intro h k hik hk
      by_cases hp : probe i = true
      · simp [waitFirst, hp] at h
      · simp [waitFirst, hp] at h
        rcases Nat.eq_or_lt_of_le hik with rfl | hlt
        · simpa using hp
        · exact (ih (i + 1)).2 h k (by omega) (by omega)

/-- C5: the health waiter polls at most timeoutSeconds attempts, returns
ready on the first successful probe, and when no probe within the budget
succeeds it returns the value false (exit status 1) — a branchable result,
not an exception — so it never blocks past its budget.  Embeds the loop of
scripts/wait_for_url.sh (and wait_container of run_experiment.sh, which is
the same loop with a budget of 30). -/
theorem health_waiter_bounded (probe : Nat → Bool) (timeout : Nat) :
    (wait_for_url probe timeout = true ↔ ∃ i, i < timeout ∧ probe i = true) ∧
    (∀ j, waitFirst probe timeout 0 = some j →
      j < timeout ∧ probe j = true ∧ ∀ k, k < j → probe k = false) ∧
    (wait_for_url probe timeout = false → ∀ i, i < timeout → probe i = false) := by
  have hs := waitFirst_spec probe timeout 0
  refine ⟨⟨fun h => ?_, fun h => ?_⟩, fun j hj => ?_, fun h i hi => ?_⟩
  · rcases ho : waitFirst probe timeout 0 with _ | j
    · simp [wait_for_url, ho] at h
    · obtain ⟨_, h2, h3, _⟩ := hs.1 j ho
      exact ⟨j, by omega, h3⟩
  · obtain ⟨i, hi, hp⟩ := h
    rcases ho : waitFirst probe timeout 0 with _ | j
    · exact absurd (hs.2 ho i (by omega) (by omega)) (by simp [hp])
    · simp [wait_for_url, ho]
  · obtain ⟨h1, h2, h3, h4⟩ := hs.1 j hj
    exact ⟨by omega, h3, fun k hk => h4 k (by omega) hk⟩
  · rcases ho : waitFirst probe timeout 0 with _ | j
    · exact hs.2 ho i (by omega) (by omega)
    · simp [wait_for_url, ho] at h

/-- Witness for C5: a probe that first succeeds on attempt 2 with a
budget of 5 yields a ready result, and an always-failing probe with a
budget of 3 yields false. -/
theorem health_waiter_bounded_witness :
    wait_for_url (fun i => i == 2) 5 = true ∧
    wait_for_url (fun _ => false) 3 = false ∧ (fun _ => false : Nat → Bool) 1 = false :=
  ⟨(health_waiter_bounded (fun i => i == 2) 5).1.mpr ⟨2, by omega, by decide⟩,
   by decide,
   (health_waiter_bounded (fun _ => false) 3).2.2 (by decide) 1 (by omega)⟩

/-- C7: the memory-to-megabytes conversion normalizes KiB, MiB and GiB
readings (among the seven supported units) so that 512 KiB maps to 0.5 MB,
12 MiB to 12 MB and 1 GiB to 1024 MB exactly, and any unit outside the
supported list yields the unavailable value (the empty string of the
script, modelled as none) instead of failing. -/
theorem to_mb_normalization :
    to_mb 512 "KiB" = some (1 / 2) ∧
    to_mb 12 "MiB" = some 12 ∧
    to_mb 1 "GiB" = some 1024 ∧
    (∀ v u, u ∉ (["KiB", "MiB", "GiB", "B", "kB", "MB", "GB"] : List String) →
      to_mb v u = none) := by
  refine ⟨?_, ?_, ?_, ?_⟩
  · show to_mb 512 "KiB" = some (1 / 2)
    unfold to_mb
    rw [if_pos rfl]
    norm_num
  · show to_mb 12 "MiB" = some 12
    unfold to_mb
    rw [if_neg (by decide), if_pos rfl]
  · show to_mb 1 "GiB" = some 1024
    unfold to_mb
    rw [if_neg (by decide), if_neg (by decide), if_pos rfl]
    norm_num
  · intro v u h
    simp only [List.mem_cons, List.not_mem_nil, or_false, not_or] at h
    obtain ⟨h1, h2, h3, h4, h5, h6, h7⟩ := h
    simp [to_mb, h1, h2, h3, h4, h5, h6, h7]

/-- Witness for C7: the unit string XB is unrecognized, so the conversion
records the value as unavailable. -/
theorem to_mb_normalization_witness : to_mb 3 "XB" = none :=
  to_mb_normalization.2.2.2 3 "XB" (by decide)

/-- C9: each iteration of the k6 load script issues the HTTP request
unconditionally (so warm-up requests still reach the target and k6's raw
output); the per-response pass/fail check callbacks are skipped while the
elapsed time is below WARMUP_SECONDS and applied to every response
afterwards, checking exactly: status equals 200, duration below the
2000 ms threshold, body shape (success flag with a positive
products_count), and a defined runtime field. -/
theorem warmup_policy_checks (elapsed : Rat) (r : K6Response) :
    K6Event.httpGet ∈ k6Iteration elapsed r ∧
    (elapsed < WARMUP_SECONDS → k6Iteration elapsed r = [K6Event.httpGet]) ∧
    (WARMUP_SECONDS ≤ elapsed →
      k6Iteration elapsed r = [K6Event.httpGet, K6Event.checksApplied (runChecks r)]) ∧
    ((runChecks r).status200 = true ↔ r.status = 200) ∧
    ((runChecks r).under2s = true ↔ r.durationMs < 2000) ∧
    ((runChecks r).hasProducts = true ↔
      r.parses = true ∧ r.success = true ∧ ∃ n, r.productsCount = some n ∧ 0 < n) := by
  refine ⟨?_, fun h => ?_, fun h => ?_, ?_, ?_, ?_⟩
  · simp [k6Iteration]
  · simp [k6Iteration, not_le.mpr h]
  · simp [k6Iteration, h]
  · simp [runChecks]
  · simp [runChecks]
  · rcases hc : r.productsCount with _ | n
    · simp [runChecks, hc]
    · constructor
      · intro hp
        simp only [runChecks, hc, Bool.and_eq_true, decide_eq_true_eq] at hp
        obtain ⟨⟨hpar, hsuc⟩, _, hpos⟩ := hp
        exact ⟨hpar, hsuc, n, rfl, hpos⟩
      · rintro ⟨h1, h2, n', hn', hpos⟩
        injection hn' with hnn
        subst hnn
        simp only [runChecks, hc, Bool.and_eq_true, decide_eq_true_eq]
        exact ⟨⟨h1, h2⟩, by omega, hpos⟩

/-- Witness for C9: at 10 s elapsed only the request happens; at 35 s the
checks run on the response, and a 200 response within threshold with a
well-shaped body passes the body check. -/
theorem warmup_policy_checks_witness :
    k6Iteration 10 k6SampleResp = [K6Event.httpGet] ∧
    k6Iteration 35 k6SampleResp =
      [K6Event.httpGet, K6Event.checksApplied (runChecks k6SampleResp)] := by
  constructor
  · exact (warmup_policy_checks 10 k6SampleResp).2.1 (by norm_num [WARMUP_SECONDS])
  · exact (warmup_policy_checks 35 k6SampleResp).2.2.1 (by norm_num [WARMUP_SECONDS])

/-- C10: the /ping health handler answers status 200 and identifies the
runtime in every application state — its success never depends on whether
the database connection was established.  This holds for the Hono app of
src/app.js (which answers the constant text pong with an X-Runtime
header and ignores the state entirely) and for the variant app of
src/unnamed/part_007 (whose JSON body reports the runtime and merely
reports the db_connected flag, with Hono's default status 200). -/
theorem ping_health_independent_of_db (runtimeName : String) (st st' : AppState) :
    (pingHono runtimeName st).status = 200 ∧
    ("X-Runtime", runtimeName) ∈ (pingHono runtimeName st).headers ∧
    pingHono runtimeName st = pingHono runtimeName st' ∧
    (pingVariant runtimeName st).1 = 200 ∧
    (pingVariant runtimeName st).2.runtime = runtimeName ∧
    (pingVariant runtimeName st).2.pong = true := by
  refine ⟨rfl, ?_, rfl, rfl, rfl, rfl⟩
  simp [pingHono]

/-- C3 (amended): characterization of the sampling loop of variant 1 of
monitor_docker_stats.sh.  The loop terminates on its own exactly when some
observation instant shows the definitive target-gone condition (empty
stats output and a failed container-existence check); a transient failed
stats query while the container still exists neither terminates the loop
nor emits a row; the emitted rows are exactly the successful stats reads
taken before the first target-gone instant. -/
theorem sampler_loop_termination (l : List SampleIn) :
    ((monitorRun1 l).2 = true ↔ ∃ i ∈ l, i.stats = none ∧ i.alive = false) ∧
    (monitorRun1 l).1 =
      (l.takeWhile fun i => !(i.stats.isNone && !i.alive)).filterMap
        (fun i => i.stats.map fun s => (i.ts, s)) := by
  induction l with
  | nil => simp [monitorRun1]
  | cons i rest ih =>
    rcases hs : i.stats with _ | s
    · rcases ha : i.alive with _ | _
      · have hstep : monitorRun1 (i :: rest) = ([], true) := by
          simp [monitorRun1, hs, ha]
        constructor
        · rw [hstep]
          simp only [true_iff]
          exact ⟨i, List.mem_cons_self i rest, hs, ha⟩
        · rw [hstep]
          simp [List.takeWhile, hs, ha]
      · have hstep : monitorRun1 (i :: rest) = monitorRun1 rest := by
          simp [monitorRun1, hs, ha]
        constructor
        · rw [hstep, ih.1]
          constructor
          · rintro ⟨j, hj, hjs, hja⟩
            exact ⟨j, List.mem_cons_of_mem i hj, hjs, hja⟩
          · rintro ⟨j, hj, hjs, hja⟩
            rcases List.mem_cons.mp hj with rfl | hj'
            · rw [ha] at hja
              exact absurd hja (by decide)
            · exact ⟨j, hj', hjs, hja⟩
        · rw [hstep, ih.2]
          simp [List.takeWhile, hs, ha]
    · have hstep : monitorRun1 (i :: rest) =
          ((i.ts, s) :: (monitorRun1 rest).1, (monitorRun1 rest).2) := by
        simp [monitorRun1, hs]
      constructor
      · rw [hstep]
        simp only
        rw [ih.1]
        constructor
        · rintro ⟨j, hj, hjs, hja⟩
          exact ⟨j, List.mem_cons_of_mem i hj, hjs, hja⟩
        · rintro ⟨j, hj, hjs, hja⟩
          rcases List.mem_cons.mp hj with rfl | hj'
          · rw [hs] at hjs
            exact absurd hjs (by simp)
          · exact ⟨j, hj', hjs, hja⟩
      · rw [hstep]
        simp only
        rw [ih.2]
        simp [List.takeWhile, hs]

/-- Witness for C3 (amended): a transient failed query at time 1 emits no
row and keeps the loop alive; the definitive target-gone observation at
time 2 terminates the loop normally. -/
theorem sampler_loop_termination_witness :
    (monitorRun1 [⟨1, none, true⟩, ⟨2, none, false⟩]).2 = true ∧
    (monitorRun1 [⟨1, none, true⟩, ⟨2, none, false⟩]).1 = [] :=
  ⟨(sampler_loop_termination [⟨1, none, true⟩, ⟨2, none, false⟩]).1.mpr
      ⟨⟨2, none, false⟩, by simp, rfl, rfl⟩,
    by rw [(sampler_loop_termination [⟨1, none, true⟩, ⟨2, none, false⟩]).2]; rfl⟩

/-- Counterexample for C3: variant 2 of monitor_docker_stats.sh
(lines 82-104) falsifies the claim.  On a schedule where the monitored
container is definitively gone at both instants, the loop does not
terminate (it processes every instant) and it appends a placeholder
all-zero row for each failed sample instead of emitting no row. -/
theorem sampler_variant2_emits_when_gone :
    monitorRun2 [⟨1, none, false⟩, ⟨2, none, false⟩] = [(1, none), (2, none)] ∧
    (monitorRun2 [⟨1, none, false⟩, ⟨2, none, false⟩]).length = 2 := by
  exact ⟨rfl, rfl⟩

/-- Helper: the timestamps of the rows emitted by the variant-1 sampler
form a sublist of the timestamps of the observation schedule. -/
theorem monitorRun1_ts_sublist (l : List SampleIn) :
    ((monitorRun1 l).1.map Prod.fst).Sublist (l.map SampleIn.ts) := by
  induction l with
  | nil => simp [monitorRun1]
  | cons i rest ih =>
    rcases hs : i.stats with _ | s
    · rcases ha : i.alive with _ | _
      · simp [monitorRun1, hs, ha]
      · simp only [monitorRun1, hs, ha, if_pos rfl, List.map_cons]
        exact List.Sublist.cons _ ih
    · simp only [monitorRun1, hs, List.map_cons]
      exact List.Sublist.cons₂ _ ih

/-- C4: within one sampler run the emitted rows are monotonically
non-decreasing in timestamp (given that the successive wall-clock readings
of the schedule are non-decreasing), and the trial runner stops the
sampler and waits for its actual termination before any downstream
collection: in every trial trace in which the monitor was started, the
kill of the monitor is immediately followed by the wait for it, and that
wait precedes the log collection, the final-stats collection and the
container teardown, so no row can be appended once collection begins. -/
theorem sampler_rows_monotone_stop_ordered :
    (∀ l : List SampleIn, List.Chain' (· ≤ ·) (l.map SampleIn.ts) →
      List.Chain' (· ≤ ·) ((monitorRun1 l).1.map Prod.fst)) ∧
    (∀ e : TrialEnv, Act.monitorStart ∈ (runTrial e).1 →
      (runTrial e).1.indexOf Act.killMonitor + 1 = (runTrial e).1.indexOf Act.waitMonitor ∧
      (runTrial e).1.indexOf Act.monitorStart < (runTrial e).1.indexOf Act.killMonitor ∧
      (runTrial e).1.indexOf Act.waitMonitor < (runTrial e).1.indexOf Act.collectLogs ∧
      (runTrial e).1.indexOf Act.waitMonitor < (runTrial e).1.indexOf Act.collectStats) := by
  constructor
  · intro l hl
    exact hl.sublist (monitorRun1_ts_sublist l)
  · rintro ⟨pre, runOk, healthy, apiOk, k6Ok, rmOk⟩ hmem
    rcases hw : wait_for_url healthy 30 with _ | _ <;>
      cases pre <;> cases runOk <;> cases apiOk <;> cases k6Ok <;> cases rmOk <;>
      simp_all [runTrial]

/-- Witness for C4: a concrete non-decreasing schedule (with a transient
failure in the middle) yields rows with non-decreasing timestamps, and the
all-healthy trial trace orders kill, wait, collection and teardown as
required. -/
theorem sampler_rows_monotone_stop_ordered_witness :
    List.Chain' (· ≤ ·)
      ((monitorRun1 [⟨1, some "a", true⟩, ⟨2, none, true⟩, ⟨2, some "b", true⟩]).1.map
        Prod.fst) ∧
    ((runTrial ⟨true, true, fun _ => true, true, true, true⟩).1.indexOf Act.killMonitor + 1 =
      (runTrial ⟨true, true, fun _ => true, true, true, true⟩).1.indexOf Act.waitMonitor ∧
     (runTrial ⟨true, true, fun _ => true, true, true, true⟩).1.indexOf Act.monitorStart <
      (runTrial ⟨true, true, fun _ => true, true, true, true⟩).1.indexOf Act.killMonitor ∧
     (runTrial ⟨true, true, fun _ => true, true, true, true⟩).1.indexOf Act.waitMonitor <
      (runTrial ⟨true, true, fun _ => true, true, true, true⟩).1.indexOf Act.collectLogs ∧
     (runTrial ⟨true, true, fun _ => true, true, true, true⟩).1.indexOf Act.waitMonitor <
      (runTrial ⟨true, true, fun _ => true, true, true, true⟩).1.indexOf Act.collectStats) :=
  ⟨sampler_rows_monotone_stop_ordered.1 [⟨1, some "a", true⟩, ⟨2, none, true⟩, ⟨2, some "b", true⟩]
      (by simp [List.chain'_cons]),
   sampler_rows_monotone_stop_ordered.2 ⟨true, true, fun _ => true, true, true, true⟩
      (by decide)⟩

/-- Counterexample for C1: the claim that the stop-and-remove operation
never raises an error that aborts the trial or the experiment is false.
The teardown `docker rm -f` of run_experiment.sh (lines 142, 162, 215) is
not guarded by || true, so under set -euo pipefail a non-zero exit of the
stop-and-remove — here injected on an otherwise fully successful trial —
aborts the whole script. -/
theorem trial_stop_failure_aborts :
    (runTrial ⟨true, true, fun _ => true, true, true, false⟩).2 = TrialExit.aborted ∧
    Act.rmTeardown false ∈ (runTrial ⟨true, true, fun _ => true, true, true, false⟩).1 := by
  decide

/-- C1 (amended): on every exit path of a trial whose container start
succeeded — successful completion, readiness timeout, API-unreachable,
load-driver failure — the teardown stop-and-remove is executed exactly
once for the trial's container, and whenever the resource sampler was
started the kill of the sampler and the wait for its termination are both
executed (those two are guarded and never abort).  The stop-and-remove
itself, however, is unguarded: only when it exits zero does the trial
avoid aborting the script. -/
theorem trial_cleanup_unconditional (e : TrialEnv) (h : e.runOk = true) :
    (runTrial e).1.countP isRmTeardown = 1 ∧
    (Act.monitorStart ∈ (runTrial e).1 →
      Act.killMonitor ∈ (runTrial e).1 ∧ Act.waitMonitor ∈ (runTrial e).1) ∧
    (e.rmOk = true → (runTrial e).2 ≠ TrialExit.aborted) := by
  obtain ⟨pre, runOk, healthy, apiOk, k6Ok, rmOk⟩ := e
  rcases hw : wait_for_url healthy 30 with _ | _ <;>
    cases pre <;> cases runOk <;> cases apiOk <;> cases k6Ok <;> cases rmOk <;>
    simp_all [runTrial, isRmTeardown, List.countP, List.countP.go]

/-- Witness for C1 (amended): a trial that fails readiness (sampler never
started) still executes the teardown exactly once, and an all-successful
trial with a successful teardown does not abort. -/
theorem trial_cleanup_unconditional_witness :
    ((runTrial ⟨true, true, fun _ => false, true, true, true⟩).1.countP isRmTeardown = 1 ∧
      (Act.monitorStart ∈ (runTrial ⟨true, true, fun _ => false, true, true, true⟩).1 →
        Act.killMonitor ∈ (runTrial ⟨true, true, fun _ => false, true, true, true⟩).1 ∧
        Act.waitMonitor ∈ (runTrial ⟨true, true, fun _ => false, true, true, true⟩).1) ∧
      (true = true →
        (runTrial ⟨true, true, fun _ => false, true, true, true⟩).2 ≠ TrialExit.aborted)) ∧
    ((runTrial ⟨true, true, fun _ => true, true, false, true⟩).1.countP isRmTeardown = 1 ∧
      (Act.monitorStart ∈ (runTrial ⟨true, true, fun _ => true, true, false, true⟩).1 →
        Act.killMonitor ∈ (runTrial ⟨true, true, fun _ => true, true, false, true⟩).1 ∧
        Act.waitMonitor ∈ (runTrial ⟨true, true, fun _ => true, true, false, true⟩).1) ∧
      (true = true →
        (runTrial ⟨true, true, fun _ => true, true, false, true⟩).2 ≠ TrialExit.aborted)) :=
  ⟨trial_cleanup_unconditional ⟨true, true, fun _ => false, true, true, true⟩ rfl,
   trial_cleanup_unconditional ⟨true, true, fun _ => true, true, false, true⟩ rfl⟩

/-- Helper: a trial whose unguarded commands (container start and teardown
removal) both succeed never aborts the script and starts exactly one
container. -/
theorem runTrial_no_abort (e : TrialEnv) (h1 : e.runOk = true) (h2 : e.rmOk = true) :
    (runTrial e).2 ≠ TrialExit.aborted ∧ (runTrial e).1.countP isDockerRun = 1 := by
  obtain ⟨pre, runOk, healthy, apiOk, k6Ok, rmOk⟩ := e
  rcases hw : wait_for_url healthy 30 with _ | _ <;>
    cases pre <;> cases runOk <;> cases apiOk <;> cases k6Ok <;> cases rmOk <;>
    simp_all [runTrial, isDockerRun, List.countP, List.countP.go]

/-- Helper: when every cell's unguarded commands succeed, the trial loop
runs one trial per cell and never aborts, whatever the guarded failures
(readiness timeouts, unreachable API, load-driver failures) do. -/
theorem runCells_all_executed (cells : List (Runtime × Nat × Nat))
    (env : Runtime × Nat × Nat → TrialEnv)
    (h : ∀ c ∈ cells, (env c).runOk = true ∧ (env c).rmOk = true) :
    (runCells cells env).2 = false ∧
    (runCells cells env).1.countP isDockerRun = cells.length := by
  induction cells with
  | nil => simp [runCells]
  | cons c rest ih =>
    obtain ⟨hc1, hc2⟩ := h c (List.mem_cons_self c rest)
    have ht := runTrial_no_abort (env c) hc1 hc2
    have ih' := ih fun c' hc' => h c' (List.mem_cons_of_mem c hc')
    have hstep : runCells (c :: rest) env =
        ((runTrial (env c)).1 ++ (runCells rest env).1, (runCells rest env).2) := by
      simp only [runCells]
      rw [if_neg]
      intro hcontra
      exact ht.1 hcontra
    rw [hstep]
    simp [List.countP_append, ht.2, ih'.1, ih'.2]
    omega

/-- C2 (amended): per-trial failures of the guarded kinds — the target
never becoming healthy or the load driver exiting non-zero — are caught
locally, and the loop proceeds through every (runtime, concurrency,
repetition) cell of the matrix, provided the unguarded commands (the
sandbox start call and the teardown removal) succeed in every cell.  A
failure of the sandbox start call itself is NOT contained: it aborts the
enclosing experiment loop (see the counterexample). -/
theorem trial_failures_contained (reps : Nat) (env : Runtime × Nat × Nat → TrialEnv)
    (h : ∀ c, (env c).runOk = true ∧ (env c).rmOk = true) :
    (runCells (matrixCells reps) env).2 = false ∧
    (runCells (matrixCells reps) env).1.countP isDockerRun = (matrixCells reps).length :=
  runCells_all_executed (matrixCells reps) env fun c _ => h c

/-- Witness for C2 (amended): with one repetition and an oracle in which
every readiness probe fails and every k6 run fails, all 9 cells of the
matrix are still visited and the loop does not abort. -/
theorem trial_failures_contained_witness :
    (runCells (matrixCells 1) (fun _ => ⟨true, true, fun _ => false, true, false, true⟩)).2 =
      false ∧
    (runCells (matrixCells 1)
        (fun _ => ⟨true, true, fun _ => false, true, false, true⟩)).1.countP isDockerRun =
      (matrixCells 1).length :=
  trial_failures_contained 1 (fun _ => ⟨true, true, fun _ => false, true, false, true⟩)
    fun _ => ⟨rfl, rfl⟩

/-- Counterexample for C2: a failure of the sandbox start call is not
caught locally.  The `docker run -d` of run_experiment.sh line 129 is an
unguarded plain command under set -euo pipefail, so when it exits non-zero
in the first cell the whole script aborts: only 1 of the 18 cells of the
(3 runtimes x 3 concurrency levels x 2 repetitions) matrix is ever
attempted. -/
theorem sandbox_start_error_aborts_matrix :
    (runCells (matrixCells 2) (fun _ => ⟨true, false, fun _ => false, true, true, true⟩)).2 =
      true ∧
    (runCells (matrixCells 2)
        (fun _ => ⟨true, false, fun _ => false, true, true, true⟩)).1.countP isDockerRun = 1 ∧
    (matrixCells 2).length = 18 := by
  decide

/-- Helper: the prelude of the experiment script never performs the final
shared-datastore teardown. -/
theorem runPrelude_no_final (p : PreEnv) : ExpAct.composeDownFinal ∉ (runPrelude p).1 := by
  obtain ⟨a, b, c, d, e, f⟩ := p
  cases a <;> cases b <;> cases c <;> cases d <;> cases e <;> cases f <;>
    simp [runPrelude]

/-- C8: in every experiment run in which the whole script ran to its
normal end (the trial matrix was iterated to completion, however many
individual trials were skipped as failed), the shared PostgreSQL
datastore teardown `docker compose down -v` of run_experiment.sh line 225
is executed exactly once, as the very last action, after every trial. -/
theorem shared_teardown_once (p : PreEnv) (reps : Nat)
    (env : Runtime × Nat × Nat → TrialEnv)
    (h : (runExperiment p reps env).2 = false) :
    ∃ t, (runExperiment p reps env).1 = t ++ [ExpAct.composeDownFinal] ∧
      ExpAct.composeDownFinal ∉ t := by
  by_cases hp : (runPrelude p).2 = true
  · exact absurd h (by simp [runExperiment, hp])
  · have hp' : (runPrelude p).2 = false := by simpa using hp
    by_cases ht : (runCells (matrixCells reps) env).2 = true
    · exact absurd h (by simp [runExperiment, hp', ht])
    · have ht' : (runCells (matrixCells reps) env).2 = false := by simpa using ht
      refine ⟨(runPrelude p).1 ++ (runCells (matrixCells reps) env).1.map ExpAct.trial,
        ?_, ?_⟩
      · simp [runExperiment, hp', ht', List.append_assoc]
      · intro hmem
        rcases List.mem_append.mp hmem with hmem1 | hmem2
        · exact runPrelude_no_final p hmem1
        · obtain ⟨a, _, ha⟩ := List.mem_map.mp hmem2
          exact ExpAct.noConfusion ha

/-- Witness for C8: an all-successful experiment with one repetition ends
with exactly the final teardown. -/
theorem shared_teardown_once_witness :
    ∃ t, (runExperiment ⟨true, true, true, true, true, true⟩ 1
        (fun _ => ⟨true, true, fun _ => true, true, true, true⟩)).1 =
      t ++ [ExpAct.composeDownFinal] ∧ ExpAct.composeDownFinal ∉ t :=
  shared_teardown_once ⟨true, true, true, true, true, true⟩ 1
    (fun _ => ⟨true, true, fun _ => true, true, true, true⟩) (by decide)

/-- Helper: decimal digit characters have the expected code points. -/
theorem digitChar_toNat_of_lt (d : Nat) (h : d < 10) : (Nat.digitChar d).toNat = 48 + d := by
  interval_cases d <;> rfl

/-- Helper: a decimal digit character is never a path separator. -/
theorem digitChar_ne_slash (d : Nat) (h : d < 10) : Nat.digitChar d ≠ '/' := by
  interval_cases d <;> decide

/-- Helper: a decimal numeral contains no path separator. -/
theorem decChars_no_slash (n : Nat) : '/' ∉ decChars n := by
  intro hmem
  unfold decChars at hmem
  rw [List.mem_reverse] at hmem
  obtain ⟨d, hd, he⟩ := List.mem_map.mp hmem
  exact digitChar_ne_slash d (Nat.digits_lt_base (by norm_num) hd) he

/-- Helper: the rendered numeral of any natural number contains no path
separator. -/
theorem natStr_no_slash (n : Nat) : '/' ∉ (natStr n).data := by
  unfold natStr
  by_cases h : n = 0
  · rw [if_pos h]
    decide
  · rw [if_neg h]
    exact decChars_no_slash n

/-- Helper: digit rendering is undone by subtracting the code point of
the zero character. -/
theorem map_digitChar_decode (l : List Nat) (hl : ∀ d ∈ l, d < 10) :
    (l.map Nat.digitChar).map (fun c => c.toNat - 48) = l := by
  induction l with
  | nil => rfl
  | cons a t ih =>
    have ha : (Nat.digitChar a).toNat - 48 = a := by
      rw [digitChar_toNat_of_lt a (hl a (List.mem_cons_self a t))]
      omega
    simp only [List.map_cons, ha]
    rw [ih fun d hd => hl d (List.mem_cons_of_mem a hd)]

/-- Helper: decimal digit-character lists determine the number. -/
theorem decChars_inj {m n : Nat} (h : decChars m = decChars n) : m = n := by
  unfold decChars at h
  have h1 : (Nat.digits 10 m).map Nat.digitChar = (Nat.digits 10 n).map Nat.digitChar :=
    List.reverse_injective h
  have h2 : Nat.digits 10 m = Nat.digits 10 n := by
    have h3 := congrArg (List.map fun c => c.toNat - 48) h1
    rwa [map_digitChar_decode _ fun d hd => Nat.digits_lt_base (by norm_num) hd,
      map_digitChar_decode _ fun d hd => Nat.digits_lt_base (by norm_num) hd] at h3
  have h4 := congrArg (Nat.ofDigits 10) h2
  rwa [Nat.ofDigits_digits, Nat.ofDigits_digits] at h4

/-- Helper: only zero renders as the bare zero character list. -/
theorem decChars_eq_zero_char {n : Nat} (h : decChars n = ['0']) : n = 0 := by
  unfold decChars at h
  have h1 : (Nat.digits 10 n).map Nat.digitChar = ['0'] := by
    have h2 := congrArg List.reverse h
    simpa using h2
  have h3 := congrArg (List.map fun c => c.toNat - 48) h1
  rw [map_digitChar_decode _ fun d hd => Nat.digits_lt_base (by norm_num) hd] at h3
  have h4 : Nat.digits 10 n = [0] := by
    rw [h3]
    rfl
  have h5 := congrArg (Nat.ofDigits 10) h4
  rw [Nat.ofDigits_digits] at h5
  simpa [Nat.ofDigits] using h5

/-- Helper: numeral rendering is injective. -/
theorem natStr_inj {m n : Nat} (h : natStr m = natStr n) : m = n := by
  have hd := congrArg String.data h
  unfold natStr at hd
  by_cases hm : m = 0 <;> by_cases hn : n = 0
  · omega
  · rw [if_pos hm, if_neg hn] at hd
    exact absurd (decChars_eq_zero_char (by simpa using hd.symm)) hn
  · rw [if_neg hm, if_pos hn] at hd
    exact absurd (decChars_eq_zero_char (by simpa using hd)) hm
  · rw [if_neg hm, if_neg hn] at hd
    exact decChars_inj (by simpa using hd)

/-- Helper: runtime names contain no path separator. -/
theorem rtName_no_slash (rt : Runtime) : '/' ∉ (rtName rt).data := by
  cases rt <;> decide

/-- Helper: runtime names are pairwise distinct. -/
theorem rtName_inj {r1 r2 : Runtime} (h : (rtName r1).data = (rtName r2).data) : r1 = r2 := by
  cases r1 <;> cases r2 <;> first | rfl | exact absurd h (by decide)

/-- Helper: splitting a character list at its first path separator is
unambiguous when the leading segments are separator-free. -/
theorem splitUnique (a : List Char) : ∀ (a' b b' : List Char), '/' ∉ a → '/' ∉ a' →
    a ++ '/' :: b = a' ++ '/' :: b' → a = a' ∧ b = b' := by
  induction a with
  | nil =>
    intro a' b b' _ ha' h
    cases a' with
    | nil =>
      simp only [List.nil_append] at h
      injection h with _ h2
      exact ⟨rfl, h2⟩
    | cons y u =>
      simp only [List.nil_append, List.cons_append] at h
      injection h with h1 _
      subst h1
      exact absurd (List.mem_cons_self _ _) ha'
  | cons x t ih =>
    intro a' b b' ha ha' h
    cases a' with
    | nil =>
      simp only [List.cons_append, List.nil_append] at h
      injection h with h1 _
      exact absurd (h1 ▸ List.mem_cons_self x t) ha
    | cons y u =>
      simp only [List.cons_append] at h
      injection h with h1 h2
      subst h1
      have ht := ih u b b' (fun hc => ha (List.mem_cons_of_mem x hc))
        (fun hc => ha' (List.mem_cons_of_mem x hc)) h2
      exact ⟨by rw [ht.1], ht.2⟩

/-- Helper: the artifact path decomposes into its four separator-delimited
segments. -/
theorem destPath_data (rt : Runtime) (v r : Nat) :
    (destPath rt v r).data =
      "results".data ++ '/' :: ((rtName rt).data ++ '/' ::
        (("vus_".data ++ (natStr v).data) ++ '/' :: ("rep_".data ++ (natStr r).data))) := by
  have happ : ∀ s t : String, (s ++ t).data = s.data ++ t.data := fun _ _ => rfl
  have hslash : ("/" : String).data = ['/'] := rfl
  unfold destPath
  simp [happ, hslash, List.append_assoc]

/-- Helper: every artifact path contains exactly three separators. -/
theorem destPath_slash_count (rt : Runtime) (v r : Nat) :
    (destPath rt v r).data.count '/' = 3 := by
  rw [destPath_data]
  have h1 : ("results".data).count '/' = 0 := by decide
  have h2 : ((rtName rt).data).count '/' = 0 := List.count_eq_zero.mpr (rtName_no_slash rt)
  have h3 : ("vus_".data).count '/' = 0 := by decide
  have h4 : ("rep_".data).count '/' = 0 := by decide
  have h5 := List.count_eq_zero.mpr (natStr_no_slash v)
  have h6 := List.count_eq_zero.mpr (natStr_no_slash r)
  simp [List.count_append, List.count_cons, h1, h2, h3, h4, h5, h6]

/-- C6: artifact-path resolution is a deterministic function of the trial
key that is injective — trial keys differing in runtime, concurrency or
repetition resolve to distinct directories — and non-overlapping: no
resolved path extends another resolved path.  Directory creation
(mkdir -p) is idempotent: re-creating an existing directory changes
nothing and still leaves the directory present. -/
theorem artifact_paths_injective :
    (∀ rt1 v1 r1 rt2 v2 r2, destPath rt1 v1 r1 = destPath rt2 v2 r2 →
      rt1 = rt2 ∧ v1 = v2 ∧ r1 = r2) ∧
    (∀ rt1 v1 r1 rt2 v2 r2 t, destPath rt2 v2 r2 ≠ destPath rt1 v1 r1 ++ "/" ++ t) ∧
    (∀ dirs p, mkdirP (mkdirP dirs p) p = mkdirP dirs p ∧ p ∈ mkdirP dirs p) := by
  refine ⟨?_, ?_, ?_⟩
  · intro rt1 v1 r1 rt2 v2 r2 h
    have hd : (destPath rt1 v1 r1).data = (destPath rt2 v2 r2).data := congrArg String.data h
    rw [destPath_data, destPath_data] at hd
    have h1 := splitUnique _ _ _ _ (by decide) (by decide) hd
    have h2 := splitUnique _ _ _ _ (rtName_no_slash rt1) (rtName_no_slash rt2) h1.2
    have hv1 : '/' ∉ "vus_".data ++ (natStr v1).data := by
      intro hc
      rcases List.mem_append.mp hc with hc1 | hc2
      · exact absurd hc1 (by decide)
      · exact natStr_no_slash v1 hc2
    have hv2 : '/' ∉ "vus_".data ++ (natStr v2).data := by
      intro hc
      rcases List.mem_append.mp hc with hc1 | hc2
      · exact absurd hc1 (by decide)
      · exact natStr_no_slash v2 hc2
    have h3 := splitUnique _ _ _ _ hv1 hv2 h2.2
    refine ⟨rtName_inj h2.1, ?_, ?_⟩
    · exact natStr_inj (String.ext (List.append_cancel_left h3.1))
    · exact natStr_inj (String.ext (List.append_cancel_left h3.2))
  · intro rt1 v1 r1 rt2 v2 r2 t h
    have happ : ∀ s u : String, (s ++ u).data = s.data ++ u.data := fun _ _ => rfl
    have hc := congrArg (fun s : String => s.data.count '/') h
    simp only [happ] at hc
    rw [destPath_slash_count, List.count_append, List.count_append,
      destPath_slash_count] at hc
    have hone : (("/" : String).data).count '/' = 1 := by decide
    rw [hone] at hc
    omega
  · intro dirs p
    by_cases hp : p ∈ dirs
    · simp [mkdirP, hp]
    · simp [mkdirP, hp]

/-- Witness for C6: resolving the key (node, 50, 1) twice yields the same
path (so the injectivity hypothesis is dischargeable by rfl), and
re-creating its directory is a no-op that keeps the directory present. -/
theorem artifact_paths_injective_witness :
    (Runtime.node = Runtime.node ∧ (50 : Nat) = 50 ∧ (1 : Nat) = 1) ∧
    (mkdirP (mkdirP [] (destPath Runtime.node 50 1)) (destPath Runtime.node 50 1) =
        mkdirP [] (destPath Runtime.node 50 1) ∧
      destPath Runtime.node 50 1 ∈ mkdirP [] (destPath Runtime.node 50 1)) :=
  ⟨artifact_paths_injective.1 Runtime.node 50 1 Runtime.node 50 1 rfl,
   artifact_paths_injective.2.2 [] (destPath Runtime.node 50 1)⟩
